import Mathlib

/- Verification of the WebGL fluid simulation core in static/js/fluid.js.

   The development shallowly embeds the simulation.  Shader passes become
   functions on finite grids over the reals: a texture of size w x h is a
   function `Fin w → Fin h → E` holding one value per texel, and each
   fragment shader becomes the function computing the value written to the
   output texel (i, j), whose interpolated varying `vUv` is the texel
   center ((i + 1/2)/w, (j + 1/2)/h).  `texture(...)` lookups are embedded
   by the GL sampling rules: bilinear filtering for textures created with
   gl.LINEAR (dye, velocity), nearest filtering for gl.NEAREST (pressure,
   divergence), and CLAMP_TO_EDGE index clamping for both.  GPU floats are
   modelled by real numbers: the numeric claims under scrutiny concern the
   real-valued semantics of the kernels, with floating-point noise treated
   as a tolerance on top of that semantics.

   The framebuffer / double-buffer bookkeeping, the size/allocation logic
   of setSize, and the render-loop scheduling have separate small models,
   each documented next to its definition with the lines of fluid.js it
   embeds. -/

namespace Fluid

noncomputable section

/-! ## Frame timing (fluid.js step, lines 344-347) -/

/-- Embeds `const dt = Math.min(0.032, (now - lastT) / 1000);` from
    step().  `now` and `lastT` are wall-clock timestamps in milliseconds
    (values of performance.now()), so `(now - lastT) / 1000` is the
    elapsed wall time in seconds. -/
def dtOf (now lastT : ℝ) : ℝ := min 0.032 ((now - lastT) / 1000)

/-! ## Grids and texture sampling -/

/-- A w x h texture holding one value of type `α` per texel. -/
abbrev Grid (w h : ℕ) (α : Type) := Fin w → Fin h → α

/-- CLAMP_TO_EDGE: a texel index outside [0, n-1] is clamped to the edge
    (fluid.js createFBO sets TEXTURE_WRAP_S/T to gl.CLAMP_TO_EDGE,
    lines 178-179). -/
def clampIdx (n : ℕ) [NeZero n] (i : ℤ) : Fin n :=
  ⟨(max 0 (min i ((n : ℤ) - 1))).toNat, by
    have hn := Nat.pos_of_ne_zero (NeZero.ne n)
    omega⟩

/-- Fetch the texel at integer coordinates (i, j), indices clamped to the
    edge. -/
def texGet {w h : ℕ} [NeZero w] [NeZero h] {α : Type} (g : Grid w h α) (i j : ℤ) : α :=
  g (clampIdx w i) (clampIdx h j)

/-- Normalized texture coordinate of the center of texel column (or row)
    `i` of an axis with `n` texels. -/
def ctr (n : ℕ) (i : ℤ) : ℝ := ((i : ℝ) + 1 / 2) / n

/-- Texel-lattice coordinate of a normalized coordinate `u`: the GL
    filtering rules place texel centers at half-integers, so the lattice
    coordinate is `u * n - 1/2`. -/
def lattice (n : ℕ) (u : ℝ) : ℝ := u * n - 1 / 2

/-- Index of the lower neighbouring texel used by bilinear filtering. -/
def baseIdx (n : ℕ) (u : ℝ) : ℤ := ⌊lattice n u⌋

/-- Bilinear interpolation weight along one axis. -/
def fracPart (n : ℕ) (u : ℝ) : ℝ := lattice n u - baseIdx n u

/-- `texture(tex, vec2 (u, v))` for a texture with gl.LINEAR filtering:
    bilinear interpolation of the four surrounding texels, each fetched
    with CLAMP_TO_EDGE. -/
def bilin {w h : ℕ} [NeZero w] [NeZero h] {E : Type} [AddCommMonoid E] [Module ℝ E]
    (g : Grid w h E) (u v : ℝ) : E :=
  ((1 - fracPart w u) * (1 - fracPart h v)) • texGet g (baseIdx w u) (baseIdx h v) +
  (fracPart w u * (1 - fracPart h v)) • texGet g (baseIdx w u + 1) (baseIdx h v) +
  ((1 - fracPart w u) * fracPart h v) • texGet g (baseIdx w u) (baseIdx h v + 1) +
  (fracPart w u * fracPart h v) • texGet g (baseIdx w u + 1) (baseIdx h v + 1)

/-- `texture(tex, vec2 (u, v))` for a texture with gl.NEAREST filtering:
    the texel whose cell contains the coordinate, clamped to the edge. -/
def nearestSample {w h : ℕ} [NeZero w] [NeZero h] {E : Type} (g : Grid w h E) (u v : ℝ) : E :=
  texGet g ⌊u * w⌋ ⌊v * h⌋

/-! ## Solver passes (fluid.js shaders, lines 61-171, and the driver
    functions advect / applyDissipation / computeDivergence /
    solvePressure / subtractGradient, lines 280-335).

    Velocity textures are RG16F with gl.LINEAR (2 stored channels, value
    type `Fin 2 → ℝ`); dye is RGBA16F with gl.LINEAR (4 channels,
    `Fin 4 → ℝ`); pressure and divergence are R16F with gl.NEAREST
    (1 channel, `ℝ`).  `uTexel` is (1/w, 1/h) (fluid.js line 262). -/

/-- advectFrag (lines 61-73): semi-Lagrangian backtrace
    `coord = vUv - uDt * v * uTexel; o = texture(uSrc, coord);` where
    `v = texture(uVel, vUv).xy`. -/
def advect {w h : ℕ} [NeZero w] [NeZero h] {E : Type} [AddCommMonoid E] [Module ℝ E]
    (src : Grid w h E) (vel : Grid w h (Fin 2 → ℝ)) (dt : ℝ) : Grid w h E :=
  fun i j =>
    bilin src
      (ctr w ((i : ℕ) : ℤ) - dt * (bilin vel (ctr w ((i : ℕ) : ℤ)) (ctr h ((j : ℕ) : ℤ))) 0 * (1 / (w : ℝ)))
      (ctr h ((j : ℕ) : ℤ) - dt * (bilin vel (ctr w ((i : ℕ) : ℤ)) (ctr h ((j : ℕ) : ℤ))) 1 * (1 / (h : ℝ)))

/-- clearFrag driven by applyDissipation (lines 90-99, 291-298):
    `o = texture(uTex, vUv) * uDissipation`. -/
def applyDissipation {w h : ℕ} [NeZero w] [NeZero h] {E : Type} [AddCommMonoid E] [Module ℝ E]
    (g : Grid w h E) (diss : ℝ) : Grid w h E :=
  fun i j => diss • bilin g (ctr w ((i : ℕ) : ℤ)) (ctr h ((j : ℕ) : ℤ))

/-- divergenceFrag (lines 75-88): central difference
    `div = 0.5 * ((R - L) + (T - B))` of the velocity sampled one texel
    away in each direction. -/
def computeDivergence {w h : ℕ} [NeZero w] [NeZero h]
    (vel : Grid w h (Fin 2 → ℝ)) : Grid w h ℝ :=
  fun i j =>
    0.5 * (((bilin vel (ctr w ((i : ℕ) : ℤ) + 1 / (w : ℝ)) (ctr h ((j : ℕ) : ℤ))) 0
            - (bilin vel (ctr w ((i : ℕ) : ℤ) - 1 / (w : ℝ)) (ctr h ((j : ℕ) : ℤ))) 0)
         + ((bilin vel (ctr w ((i : ℕ) : ℤ)) (ctr h ((j : ℕ) : ℤ) + 1 / (h : ℝ))) 1
            - (bilin vel (ctr w ((i : ℕ) : ℤ)) (ctr h ((j : ℕ) : ℤ) - 1 / (h : ℝ))) 1))

/-- pressureFrag (lines 101-116): one Jacobi relaxation step
    `p = (L + R + B + T - div) * 0.25` (pressure and divergence textures
    are gl.NEAREST). -/
def pressureStep {w h : ℕ} [NeZero w] [NeZero h]
    (p dv : Grid w h ℝ) : Grid w h ℝ :=
  fun i j =>
    (nearestSample p (ctr w ((i : ℕ) : ℤ) - 1 / (w : ℝ)) (ctr h ((j : ℕ) : ℤ))
     + nearestSample p (ctr w ((i : ℕ) : ℤ) + 1 / (w : ℝ)) (ctr h ((j : ℕ) : ℤ))
     + nearestSample p (ctr w ((i : ℕ) : ℤ)) (ctr h ((j : ℕ) : ℤ) - 1 / (h : ℝ))
     + nearestSample p (ctr w ((i : ℕ) : ℤ)) (ctr h ((j : ℕ) : ℤ) + 1 / (h : ℝ))
     - nearestSample dv (ctr w ((i : ℕ) : ℤ)) (ctr h ((j : ℕ) : ℤ))) * 0.25

/-- `const pressureIters = 15;` (fluid.js line 271). -/
def pressureIters : ℕ := 15

/-- solvePressure (lines 309-324): the write buffer is cleared to 0 and
    swapped in, then `pressureIters` Jacobi steps run, swapping after
    each; the final read buffer is the 15-fold iterate starting from the
    all-zero pressure field.  No pressure is carried across frames: every
    call restarts from zero. -/
def solvePressure {w h : ℕ} [NeZero w] [NeZero h] (dv : Grid w h ℝ) : Grid w h ℝ :=
  (fun p => pressureStep p dv)^[pressureIters] (fun _ _ => 0)

/-- gradientSubtractFrag (lines 118-133):
    `grad = vec2 (R - L, T - B) * 0.5; v = texture(uVel, vUv).xy - grad`. -/
def subtractGradient {w h : ℕ} [NeZero w] [NeZero h]
    (vel : Grid w h (Fin 2 → ℝ)) (p : Grid w h ℝ) : Grid w h (Fin 2 → ℝ) :=
  fun i j =>
    ![ (bilin vel (ctr w ((i : ℕ) : ℤ)) (ctr h ((j : ℕ) : ℤ))) 0
         - (nearestSample p (ctr w ((i : ℕ) : ℤ) + 1 / (w : ℝ)) (ctr h ((j : ℕ) : ℤ))
            - nearestSample p (ctr w ((i : ℕ) : ℤ) - 1 / (w : ℝ)) (ctr h ((j : ℕ) : ℤ))) * 0.5,
       (bilin vel (ctr w ((i : ℕ) : ℤ)) (ctr h ((j : ℕ) : ℤ))) 1
         - (nearestSample p (ctr w ((i : ℕ) : ℤ)) (ctr h ((j : ℕ) : ℤ) + 1 / (h : ℝ))
            - nearestSample p (ctr w ((i : ℕ) : ℤ)) (ctr h ((j : ℕ) : ℤ) - 1 / (h : ℝ))) * 0.5 ]

/-- `const clearDye = 0.995;` (fluid.js line 269). -/
def clearDye : ℝ := 0.995

/-- `const clearVel = 0.995;` (fluid.js line 270). -/
def clearVel : ℝ := 0.995

/-- The persistent simulation state: the read buffers of the velocity and
    dye double-FBOs.  Pressure and divergence are recomputed from scratch
    every frame (solvePressure clears pressure first), so they are not
    part of the persistent state. -/
structure FluidState (w h : ℕ) where
  vel : Grid w h (Fin 2 → ℝ)
  dye : Grid w h (Fin 4 → ℝ)

/-- The velocity half of step() (lines 348-355): advect velocity by
    itself, dissipate by clearVel, compute divergence, solve pressure,
    subtract the pressure gradient. -/
def stepVel {w h : ℕ} [NeZero w] [NeZero h] (dt : ℝ) (s : FluidState w h) : Grid w h (Fin 2 → ℝ) :=
  subtractGradient (applyDissipation (advect s.vel s.vel dt) clearVel)
    (solvePressure (computeDivergence (applyDissipation (advect s.vel s.vel dt) clearVel)))

/-- One frame of step() (lines 344-362) as a state transformer: the new
    velocity is stepVel; the dye is advected by the new velocity and then
    dissipated by clearDye.  (The final render() pass only presents the
    dye buffer and changes no simulation state.) -/
def step {w h : ℕ} [NeZero w] [NeZero h] (dt : ℝ) (s : FluidState w h) : FluidState w h :=
  { vel := stepVel dt s,
    dye := applyDissipation (advect s.dye (stepVel dt s) dt) clearDye }

/-! ## Splats (fluid.js splat, lines 368-393, and the shaders splatFrag
    lines 135-149 and splatVelFrag lines 151-164) -/

/-- The Gaussian falloff `a = exp(-(d*d) / max(1e-6, r*r))` computed by
    both splat shaders, where `d = distance(vUv, uPoint)` and `r` is the
    already-floor-clamped radius. -/
def splatAmp {w h : ℕ} (x y cr : ℝ) (i : Fin w) (j : Fin h) : ℝ :=
  Real.exp (-(Real.sqrt ((ctr w ((i : ℕ) : ℤ) - x) ^ 2 + (ctr h ((j : ℕ) : ℤ) - y) ^ 2)
              * Real.sqrt ((ctr w ((i : ℕ) : ℤ) - x) ^ 2 + (ctr h ((j : ℕ) : ℤ) - y) ^ 2))
            / max 1e-6 (cr * cr))

/-- splat(x, y, color, radius, force) (lines 368-393).
    `radius = radius == null ? 0.04 : radius` is `radius.getD 0.04`;
    `cr = Math.max(0.002, radius)`.  The dye pass (splatFrag) writes
    `base + vec4 (uColor * a, a)`, i.e. adds `a • (c0, c1, c2, 1)`.
    The velocity pass always runs, with
    `fx = force && force[0] || 0` and `fy = force && force[1] || 0`
    (0 whenever `force` is omitted), and writes
    `vec4 (v + uForce * a, 0, 1)`, of which the RG16F target stores the
    two velocity channels.  Both passes read the current read buffer at
    `vUv` and swap afterwards. -/
def splat {w h : ℕ} [NeZero w] [NeZero h] (s : FluidState w h) (x y : ℝ)
    (color : Fin 3 → ℝ) (radius : Option ℝ) (force : Option (ℝ × ℝ)) : FluidState w h :=
  { dye := fun i j =>
      bilin s.dye (ctr w ((i : ℕ) : ℤ)) (ctr h ((j : ℕ) : ℤ)) +
        splatAmp x y (max 0.002 (radius.getD 0.04)) i j • ![color 0, color 1, color 2, 1],
    vel := fun i j =>
      bilin s.vel (ctr w ((i : ℕ) : ℤ)) (ctr h ((j : ℕ) : ℤ)) +
        splatAmp x y (max 0.002 (radius.getD 0.04)) i j •
          ![(force.map Prod.fst).getD 0, (force.map Prod.snd).getD 0] }

/-- One requested splat: the argument tuple of a call to splat(). -/
structure SplatReq where
  x : ℝ
  y : ℝ
  color : Fin 3 → ℝ
  radius : Option ℝ
  force : Option (ℝ × ℝ)

/-- A splat applies zero force: either `force` is omitted or both of its
    components are 0 (fluid.js computes `fx = force && force[0] || 0`). -/
def ZeroForce (r : SplatReq) : Prop :=
  (r.force.map Prod.fst).getD 0 = 0 ∧ (r.force.map Prod.snd).getD 0 = 0

/-- Apply one requested splat. -/
def applySplat {w h : ℕ} [NeZero w] [NeZero h] (s : FluidState w h) (r : SplatReq) : FluidState w h :=
  splat s r.x r.y r.color r.radius r.force

/-- Apply a list of requested splats in order (the splats issued by
    external callers between two frames). -/
def applySplats {w h : ℕ} [NeZero w] [NeZero h] (s : FluidState w h) (L : List SplatReq) : FluidState w h :=
  L.foldl applySplat s

/-- Total dye magnitude: the sum of the three color channels over all
    texels. -/
def totalDye {w h : ℕ} (d : Grid w h (Fin 4 → ℝ)) : ℝ :=
  ∑ i : Fin w, ∑ j : Fin h, (d i j 0 + d i j 1 + d i j 2)

/-- Dye mass injected by one splat: the sum over all texels of the
    Gaussian amplitude times the sum of the three color components —
    exactly what the splat pass adds to the color channels. -/
def splatMass (w h : ℕ) (x y : ℝ) (color : Fin 3 → ℝ) (radius : Option ℝ) : ℝ :=
  ∑ i : Fin w, ∑ j : Fin h,
    splatAmp x y (max 0.002 (radius.getD 0.04)) i j * (color 0 + color 1 + color 2)

/-- The all-zero 2x2 state: velocity and dye as freshly allocated by
    createDoubleFBO (texImage2D with null data gives zero texels). -/
def fluidZero2 : FluidState 2 2 :=
  { vel := fun _ _ => 0, dye := fun _ _ => 0 }

/-- A concrete splat request: center (1/2, 1/2), color (100, 100, 100),
    radius 10, no force. -/
def reqCE : SplatReq :=
  { x := 1 / 2, y := 1 / 2, color := fun _ => 100, radius := some 10, force := none }

end

/-! ## Context creation (fluid.js createGL, lines 14-20) -/

/-- `initFluid` can only fail by `createGL` throwing. -/
inductive InitFailure where
  | webgl2NotSupported

/-- What createGL returns: the context, remembering which of the two
    requested floating-point texture extensions the platform actually
    has. -/
structure GLContext where
  extColorBufferFloat : Bool
  extTextureFloatLinear : Bool

/-- createGL (lines 14-20): `canvas.getContext('webgl2', ...)`; if the
    context is unavailable it throws (modelled as `Except.error`); then
    `gl.getExtension('EXT_color_buffer_float')` and
    `gl.getExtension('OES_texture_float_linear')` are called but their
    results are DISCARDED — extension availability is never checked and
    never influences the outcome. -/
def createGL (contextAvailable extColorBufferFloat extTextureFloatLinear : Bool) :
    Except InitFailure GLContext :=
  if contextAvailable then
    Except.ok { extColorBufferFloat := extColorBufferFloat,
                extTextureFloatLinear := extTextureFloatLinear }
  else
    Except.error InitFailure.webgl2NotSupported

/-- Whether context acquisition succeeded. -/
def initSucceeds (r : Except InitFailure GLContext) : Bool :=
  match r with
  | Except.ok _ => true
  | Except.error _ => false

/-! ## Double-buffered FBOs (fluid.js createFBO lines 173-188 and
    createDoubleFBO lines 190-198) -/

/-- The record returned by createFBO: texture handle, framebuffer handle,
    and dimensions.  Handles are opaque ids. -/
structure FBORec where
  tex : ℕ
  fbo : ℕ
  w : ℕ
  h : ℕ

/-- The pair returned by createDoubleFBO: `read` is fbo1, `write` is
    fbo2.  gl.createTexture / gl.createFramebuffer return fresh objects,
    so a freshly created pair has distinct handles. -/
structure DoubleFBO where
  read : FBORec
  write : FBORec

/-- createDoubleFBO(gl, w, h, ...): two independent createFBO calls with
    the given (distinct) fresh handles. -/
def createDoubleFBO (t1 f1 t2 f2 w h : ℕ) : DoubleFBO :=
  { read := { tex := t1, fbo := f1, w := w, h := h },
    write := { tex := t2, fbo := f2, w := w, h := h } }

/-- swap() (line 196): exchanges the tex and fbo handles of the two
    records.  No texel data is read, written or copied — only the two
    handles move. -/
def DoubleFBO.swap (d : DoubleFBO) : DoubleFBO :=
  { read := { d.read with tex := d.write.tex, fbo := d.write.fbo },
    write := { d.write with tex := d.read.tex, fbo := d.read.fbo } }

/-! ## Field store sizing (fluid.js setSize lines 253-264, resize lines
    364-366, texel line 262-267, dpr line 215) -/

/-- One allocated texture with its texel contents (ℚ-valued: the store
    model only tracks zero / nonzero content, not shader numerics). -/
structure FieldRec where
  w : ℕ
  h : ℕ
  data : ℕ → ℕ → ℚ

/-- A texture as allocated by `gl.texImage2D(..., null)`: all texels
    zero. -/
def zeroFieldRec (w h : ℕ) : FieldRec :=
  { w := w, h := h, data := fun _ _ => 0 }

/-- The field store: current device-pixel size, the stored texel size
    (the `texel` Float32Array, line 267), and the seven allocated
    textures (dye, velocity and pressure are double-buffered; divergence
    is single). -/
structure FieldStore where
  width : ℕ
  height : ℕ
  texel : ℚ × ℚ
  dyeRead : FieldRec
  dyeWrite : FieldRec
  velRead : FieldRec
  velWrite : FieldRec
  prsRead : FieldRec
  prsWrite : FieldRec
  divField : FieldRec

/-- `const dpr = Math.min(window.devicePixelRatio || 1, opts.maxDPR || 2)`
    (line 215): the device pixel ratio capped by the maxDPR option, with
    defaults 1 and 2. -/
def cappedDPR (deviceDPR maxDPR : Option ℚ) : ℚ :=
  min (deviceDPR.getD 1) (maxDPR.getD 2)

/-- `Math.max(2, Math.floor(clientSize * dpr))` (lines 254-255): the
    requested device-pixel size along one axis. -/
def requestedSize (client dpr : ℚ) : ℕ :=
  (max 2 ⌊client * dpr⌋).toNat

/-- setSize() (lines 253-264): compute the requested size; if it equals
    the current size, return false and change nothing; otherwise record
    the new size, reallocate every field at the new shape with zero
    contents (prior contents are dropped), set texel = (1/width,
    1/height), and return true. -/
def setSize (st : FieldStore) (clientW clientH dpr : ℚ) : FieldStore × Bool :=
  if requestedSize clientW dpr = st.width ∧ requestedSize clientH dpr = st.height then
    (st, false)
  else
    ({ width := requestedSize clientW dpr,
       height := requestedSize clientH dpr,
       texel := (1 / ((requestedSize clientW dpr : ℕ) : ℚ), 1 / ((requestedSize clientH dpr : ℕ) : ℚ)),
       dyeRead := zeroFieldRec (requestedSize clientW dpr) (requestedSize clientH dpr),
       dyeWrite := zeroFieldRec (requestedSize clientW dpr) (requestedSize clientH dpr),
       velRead := zeroFieldRec (requestedSize clientW dpr) (requestedSize clientH dpr),
       velWrite := zeroFieldRec (requestedSize clientW dpr) (requestedSize clientH dpr),
       prsRead := zeroFieldRec (requestedSize clientW dpr) (requestedSize clientH dpr),
       prsWrite := zeroFieldRec (requestedSize clientW dpr) (requestedSize clientH dpr),
       divField := zeroFieldRec (requestedSize clientW dpr) (requestedSize clientH dpr) }, true)

/-- The public resize() (lines 364-366): `function resize(){ setSize(); }`
    — the boolean result is discarded. -/
def resize (st : FieldStore) (clientW clientH dpr : ℚ) : FieldStore :=
  (setSize st clientW clientH dpr).1

/-- The store before the first setSize: `let width = 0, height = 0`
    (line 244) and no allocated fields (represented by empty records). -/
def emptyStore : FieldStore :=
  { width := 0, height := 0, texel := (0, 0),
    dyeRead := zeroFieldRec 0 0, dyeWrite := zeroFieldRec 0 0,
    velRead := zeroFieldRec 0 0, velWrite := zeroFieldRec 0 0,
    prsRead := zeroFieldRec 0 0, prsWrite := zeroFieldRec 0 0,
    divField := zeroFieldRec 0 0 }

/-- The store right after initFluid's initial `setSize()` call
    (line 413). -/
def initStore (clientW clientH dpr : ℚ) : FieldStore :=
  (setSize emptyStore clientW clientH dpr).1

/-- All seven field records have exactly the dimensions (a, b). -/
abbrev fieldsSized (st : FieldStore) (a b : ℕ) : Prop :=
  st.dyeRead.w = a ∧ st.dyeRead.h = b ∧ st.dyeWrite.w = a ∧ st.dyeWrite.h = b ∧
  st.velRead.w = a ∧ st.velRead.h = b ∧ st.velWrite.w = a ∧ st.velWrite.h = b ∧
  st.prsRead.w = a ∧ st.prsRead.h = b ∧ st.prsWrite.w = a ∧ st.prsWrite.h = b ∧
  st.divField.w = a ∧ st.divField.h = b

/-- All seven field records hold all-zero contents. -/
abbrev fieldsZero (st : FieldStore) : Prop :=
  (∀ x y, st.dyeRead.data x y = 0) ∧ (∀ x y, st.dyeWrite.data x y = 0) ∧
  (∀ x y, st.velRead.data x y = 0) ∧ (∀ x y, st.velWrite.data x y = 0) ∧
  (∀ x y, st.prsRead.data x y = 0) ∧ (∀ x y, st.prsWrite.data x y = 0) ∧
  (∀ x y, st.divField.data x y = 0)

/-- The store invariant established by every allocation: size at least
    2 x 2, every field at the store's size, and the stored texel equal to
    (1/width, 1/height). -/
abbrev storeInv (st : FieldStore) : Prop :=
  2 ≤ st.width ∧ 2 ≤ st.height ∧ fieldsSized st st.width st.height ∧
  st.texel = (1 / ((st.width : ℕ) : ℚ), 1 / ((st.height : ℕ) : ℚ))

/-- A concrete store at size 2 x 2 whose dye read buffer holds the
    constant 1 (nonzero content, as after some splats). -/
def storeCE : FieldStore :=
  { width := 2, height := 2, texel := (1 / 2, 1 / 2),
    dyeRead := { w := 2, h := 2, data := fun _ _ => 1 },
    dyeWrite := zeroFieldRec 2 2,
    velRead := zeroFieldRec 2 2, velWrite := zeroFieldRec 2 2,
    prsRead := zeroFieldRec 2 2, prsWrite := zeroFieldRec 2 2,
    divField := zeroFieldRec 2 2 }

/-! ## Render loop scheduling (fluid.js step lines 344-362, destroy
    line 250, splat lines 368-393, initFluid line 414)

    This model tracks the observable scheduling and GPU-command effects:
    `drawCalls` counts gl.drawArrays invocations (each bindAndDraw is
    one), `rafScheduled` records whether a requestAnimationFrame callback
    is pending, and `canvasAttached` whether the canvas is still in the
    DOM. -/

/-- Scheduling / GPU-effect state of one initFluid instance. -/
structure DriverState where
  canvasAttached : Bool
  rafScheduled : Bool
  drawCalls : ℕ

/-- Draw passes issued by one step(): advect velocity, dissipate
    velocity, divergence, pressureIters Jacobi passes, gradient subtract,
    advect dye, dissipate dye, and the final render — 7 + pressureIters
    = 22.  (solvePressure additionally issues one gl.clear.) -/
def stepDrawCount : ℕ := 7 + pressureIters

/-- One requestAnimationFrame tick running step().  The `visible`
    argument is the visibility of the hosting page; the body of step()
    consults no visibility state whatsoever (fluid.js registers no
    visibilitychange listener and reads no document.hidden), so the
    argument is ignored: every tick executes all passes and reschedules
    itself (`requestAnimationFrame(step)`, line 361). -/
def driverStep (visible : Bool) (s : DriverState) : DriverState :=
  { s with drawCalls := s.drawCalls + stepDrawCount, rafScheduled := true }

/-- destroy() (line 250):
    `destroy(){ try{ gl.getExtension; }catch(e){} if (canvas.parentNode)
    canvas.parentNode.removeChild(canvas); }` — it removes the canvas
    from the DOM and does nothing else: no cancelAnimationFrame, no flag
    consulted by step or splat, no resource release. -/
def destroy (s : DriverState) : DriverState :=
  { s with canvasAttached := false }

/-- splat() issues two unconditional draw passes (dye then velocity)
    regardless of any lifecycle state — there is no destroyed-check in
    its body. -/
def splatIssue (s : DriverState) : DriverState :=
  { s with drawCalls := s.drawCalls + 2 }

/-- splatRandom(count) issues count splats (lines 395-410). -/
def splatRandomIssue (count : ℕ) (s : DriverState) : DriverState :=
  splatIssue^[count] s

/-- The driver state right after initFluid returns: canvas appended,
    first frame scheduled (line 414), no draws counted yet. -/
def initDriver : DriverState :=
  { canvasAttached := true, rafScheduled := true, drawCalls := 0 }

/-! ## Sampling lemmas -/

theorem lattice_ctr (n : ℕ) [NeZero n] (i : ℤ) : lattice n (ctr n i) = (i : ℝ) := by
  have hn : (n : ℝ) ≠ 0 := Nat.cast_ne_zero.mpr (NeZero.ne n)
  rw [lattice, ctr]
  field_simp
  ring

theorem baseIdx_ctr (n : ℕ) [NeZero n] (i : ℤ) : baseIdx n (ctr n i) = i := by
  rw [baseIdx, lattice_ctr, Int.floor_intCast]

theorem fracPart_ctr (n : ℕ) [NeZero n] (i : ℤ) : fracPart n (ctr n i) = 0 := by
  rw [fracPart, lattice_ctr, baseIdx_ctr, sub_self]

theorem bilin_center {w h : ℕ} [NeZero w] [NeZero h] {E : Type} [AddCommMonoid E] [Module ℝ E]
    (g : Grid w h E) (i j : ℤ) : bilin g (ctr w i) (ctr h j) = texGet g i j := by
  rw [bilin, baseIdx_ctr, baseIdx_ctr, fracPart_ctr, fracPart_ctr]
  simp

theorem clampIdx_val {n : ℕ} [NeZero n] (i : Fin n) : clampIdx n ((i : ℕ) : ℤ) = i := by
  have hi := i.isLt
  apply Fin.ext
  simp only [clampIdx]
  omega

theorem texGet_val {w h : ℕ} [NeZero w] [NeZero h] {α : Type} (g : Grid w h α)
    (i : Fin w) (j : Fin h) : texGet g ((i : ℕ) : ℤ) ((j : ℕ) : ℤ) = g i j := by
  rw [texGet, clampIdx_val, clampIdx_val]

theorem bilin_center_val {w h : ℕ} [NeZero w] [NeZero h] {E : Type} [AddCommMonoid E] [Module ℝ E]
    (g : Grid w h E) (i : Fin w) (j : Fin h) :
    bilin g (ctr w ((i : ℕ) : ℤ)) (ctr h ((j : ℕ) : ℤ)) = g i j := by
  rw [bilin_center, texGet_val]

theorem bilin_eq_zero {w h : ℕ} [NeZero w] [NeZero h] {E : Type} [AddCommMonoid E] [Module ℝ E]
    (g : Grid w h E) (hg : ∀ i j, g i j = 0) (u v : ℝ) : bilin g u v = 0 := by
  simp [bilin, texGet, hg]

theorem nearestSample_eq_zero {w h : ℕ} [NeZero w] [NeZero h] {E : Type} [AddCommMonoid E]
    (g : Grid w h E) (hg : ∀ i j, g i j = 0) (u v : ℝ) : nearestSample g u v = 0 := by
  simp [nearestSample, texGet, hg]

/-! ## Pass lemmas at zero velocity / zero divergence -/

theorem advect_of_zero_vel {w h : ℕ} [NeZero w] [NeZero h] {E : Type}
    [AddCommMonoid E] [Module ℝ E] (src : Grid w h E) (vel : Grid w h (Fin 2 → ℝ))
    (hv : ∀ i j, vel i j = 0) (dt : ℝ) (i : Fin w) (j : Fin h) :
    advect src vel dt i j = src i j := by
  have h0 : bilin vel (ctr w ((i : ℕ) : ℤ)) (ctr h ((j : ℕ) : ℤ)) = 0 :=
    bilin_eq_zero vel hv _ _
  simp only [advect, h0, Pi.zero_apply, mul_zero, zero_mul, sub_zero]
  exact bilin_center_val src i j

theorem applyDissipation_apply {w h : ℕ} [NeZero w] [NeZero h] {E : Type}
    [AddCommMonoid E] [Module ℝ E] (g : Grid w h E) (diss : ℝ) (i : Fin w) (j : Fin h) :
    applyDissipation g diss i j = diss • g i j := by
  simp only [applyDissipation, bilin_center_val]

theorem computeDivergence_of_zero {w h : ℕ} [NeZero w] [NeZero h]
    (vel : Grid w h (Fin 2 → ℝ)) (hv : ∀ i j, vel i j = 0) (i : Fin w) (j : Fin h) :
    computeDivergence vel i j = 0 := by
  simp [computeDivergence, bilin_eq_zero vel hv]

theorem pressureStep_zero {w h : ℕ} [NeZero w] [NeZero h] (p dv : Grid w h ℝ)
    (hp : ∀ i j, p i j = 0) (hdv : ∀ i j, dv i j = 0) (i : Fin w) (j : Fin h) :
    pressureStep p dv i j = 0 := by
  simp [pressureStep, nearestSample_eq_zero p hp, nearestSample_eq_zero dv hdv]

theorem solvePressure_zero {w h : ℕ} [NeZero w] [NeZero h] (dv : Grid w h ℝ)
    (hdv : ∀ i j, dv i j = 0) (i : Fin w) (j : Fin h) : solvePressure dv i j = 0 := by
  suffices hall : ∀ (n : ℕ) (p : Grid w h ℝ), (∀ a b, p a b = 0) →
      ∀ a b, (fun q => pressureStep q dv)^[n] p a b = 0 by
    exact hall pressureIters _ (fun _ _ => rfl) i j
  intro n
  induction n with
  | zero => intro p hp a b; simpa using hp a b
  | succ n ih =>
      intro p hp a b
      rw [Function.iterate_succ_apply]
      exact ih _ (fun a b => pressureStep_zero p dv hp hdv a b) a b

theorem subtractGradient_of_zero_pressure {w h : ℕ} [NeZero w] [NeZero h]
    (vel : Grid w h (Fin 2 → ℝ)) (p : Grid w h ℝ) (hp : ∀ i j, p i j = 0)
    (i : Fin w) (j : Fin h) :
    subtractGradient vel p i j = bilin vel (ctr w ((i : ℕ) : ℤ)) (ctr h ((j : ℕ) : ℤ)) := by
  funext c
  fin_cases c <;> simp [subtractGradient, nearestSample_eq_zero p hp]

theorem stepVel_of_zero {w h : ℕ} [NeZero w] [NeZero h] (dt : ℝ) (s : FluidState w h)
    (hv : ∀ i j, s.vel i j = 0) (i : Fin w) (j : Fin h) : stepVel dt s i j = 0 := by
  have hv1 : ∀ i j, advect s.vel s.vel dt i j = 0 := fun i j => by
    rw [advect_of_zero_vel s.vel s.vel hv dt i j, hv]
  have hv2 : ∀ i j, applyDissipation (advect s.vel s.vel dt) clearVel i j = 0 := fun i j => by
    rw [applyDissipation_apply, hv1, smul_zero]
  have hdv := computeDivergence_of_zero _ hv2
  have hp := solvePressure_zero (computeDivergence (applyDissipation (advect s.vel s.vel dt) clearVel)) hdv
  rw [stepVel, subtractGradient_of_zero_pressure _ _ hp, bilin_eq_zero _ hv2]

theorem step_of_zero_vel {w h : ℕ} [NeZero w] [NeZero h] (dt : ℝ) (s : FluidState w h)
    (hv : ∀ i j, s.vel i j = 0) :
    (∀ i j, (step dt s).vel i j = 0) ∧
    (∀ i j, (step dt s).dye i j = clearDye • s.dye i j) := by
  constructor
  · intro i j
    exact stepVel_of_zero dt s hv i j
  · intro i j
    show applyDissipation (advect s.dye (stepVel dt s) dt) clearDye i j = clearDye • s.dye i j
    rw [applyDissipation_apply, advect_of_zero_vel s.dye _ (stepVel_of_zero dt s hv) dt i j]

/-! ## Splat lemmas -/

theorem splat_dye_apply {w h : ℕ} [NeZero w] [NeZero h] (s : FluidState w h) (x y : ℝ)
    (color : Fin 3 → ℝ) (radius : Option ℝ) (force : Option (ℝ × ℝ)) (i : Fin w) (j : Fin h) :
    (splat s x y color radius force).dye i j =
      s.dye i j + splatAmp x y (max 0.002 (radius.getD 0.04)) i j •
        ![color 0, color 1, color 2, 1] := by
  show bilin s.dye _ _ + _ = _
  rw [bilin_center_val]

theorem splat_vel_apply {w h : ℕ} [NeZero w] [NeZero h] (s : FluidState w h) (x y : ℝ)
    (color : Fin 3 → ℝ) (radius : Option ℝ) (force : Option (ℝ × ℝ)) (i : Fin w) (j : Fin h) :
    (splat s x y color radius force).vel i j =
      s.vel i j + splatAmp x y (max 0.002 (radius.getD 0.04)) i j •
        ![(force.map Prod.fst).getD 0, (force.map Prod.snd).getD 0] := by
  show bilin s.vel _ _ + _ = _
  rw [bilin_center_val]

theorem vec2_zero : (![(0 : ℝ), 0] : Fin 2 → ℝ) = 0 := by
  funext c
  fin_cases c <;> simp

/-! ## Dye-mass bookkeeping -/

theorem totalDye_splat {w h : ℕ} [NeZero w] [NeZero h] (s : FluidState w h) (x y : ℝ)
    (color : Fin 3 → ℝ) (radius : Option ℝ) (force : Option (ℝ × ℝ)) :
    totalDye (splat s x y color radius force).dye =
      totalDye s.dye + splatMass w h x y color radius := by
  rw [totalDye, totalDye, splatMass, ← Finset.sum_add_distrib]
  refine Finset.sum_congr rfl fun i _ => ?_
  rw [← Finset.sum_add_distrib]
  refine Finset.sum_congr rfl fun j _ => ?_
  rw [splat_dye_apply]
  simp only [Pi.add_apply, Pi.smul_apply, smul_eq_mul, Matrix.cons_val_zero,
    Matrix.cons_val_one, Matrix.head_cons]
  have h2 : (![color 0, color 1, color 2, (1 : ℝ)]) 2 = color 2 := rfl
  rw [h2]
  ring

theorem totalDye_step_of_zero_vel {w h : ℕ} [NeZero w] [NeZero h] (dt : ℝ)
    (s : FluidState w h) (hv : ∀ i j, s.vel i j = 0) :
    totalDye (step dt s).dye = clearDye * totalDye s.dye := by
  have hd := (step_of_zero_vel dt s hv).2
  rw [totalDye, totalDye, Finset.mul_sum]
  refine Finset.sum_congr rfl fun i _ => ?_
  rw [Finset.mul_sum]
  refine Finset.sum_congr rfl fun j _ => ?_
  rw [hd i j]
  simp only [Pi.smul_apply, smul_eq_mul]
  ring

theorem applySplat_vel_of_zero_force {w h : ℕ} [NeZero w] [NeZero h] (s : FluidState w h)
    (r : SplatReq) (hzf : ZeroForce r) (i : Fin w) (j : Fin h) :
    (applySplat s r).vel i j = s.vel i j := by
  rw [applySplat, splat_vel_apply, hzf.1, hzf.2, vec2_zero, smul_zero, add_zero]

theorem applySplats_of_zero_force {w h : ℕ} [NeZero w] [NeZero h] (L : List SplatReq) :
    ∀ s : FluidState w h, (∀ i j, s.vel i j = 0) → (∀ r ∈ L, ZeroForce r) →
      (∀ i j, (applySplats s L).vel i j = 0) ∧
      totalDye (applySplats s L).dye =
        totalDye s.dye + (L.map fun r => splatMass w h r.x r.y r.color r.radius).sum := by
  induction L with
  | nil =>
      intro s hv _
      exact ⟨hv, by simp [applySplats]⟩
  | cons r t ih =>
      intro s hv hL
      have hzf : ZeroForce r := hL r (List.mem_cons_self r t)
      have hv1 : ∀ i j, (applySplat s r).vel i j = 0 := fun i j => by
        rw [applySplat_vel_of_zero_force s r hzf, hv]
      have ht := ih (applySplat s r) hv1 fun q hq => hL q (List.mem_cons_of_mem r hq)
      refine ⟨ht.1, ?_⟩
      show totalDye (applySplats (applySplat s r) t).dye = _
      rw [ht.2, applySplat, totalDye_splat]
      simp only [List.map_cons, List.sum_cons]
      ring

/-- The per-frame total-dye recurrence underlying C5: starting from any
    zero-velocity state, a batch of zero-force splats followed by one
    step() multiplies the whole total — injected mass included — by
    clearDye, and the velocity stays zero. -/
theorem frameTotal {w h : ℕ} [NeZero w] [NeZero h] (dt : ℝ) (s : FluidState w h)
    (L : List SplatReq) (hv : ∀ i j, s.vel i j = 0) (hL : ∀ r ∈ L, ZeroForce r) :
    totalDye (step dt (applySplats s L)).dye =
      clearDye * (totalDye s.dye + (L.map fun r => splatMass w h r.x r.y r.color r.radius).sum) ∧
    (∀ i j, (step dt (applySplats s L)).vel i j = 0) := by
  obtain ⟨hva, hta⟩ := applySplats_of_zero_force L s hv hL
  exact ⟨by rw [totalDye_step_of_zero_vel dt _ hva, hta],
         (step_of_zero_vel dt _ hva).1⟩

/-! ## Claim theorems -/

/-- C1: for every frame, the simulation delta-time equals the minimum of
    0.032 s and the actual elapsed wall time since the previous frame (in
    seconds), hence never exceeds 0.032 s; in particular an elapsed real
    time of 5 seconds (now - lastT = 5000 ms) yields dt = 0.032. -/
theorem dt_min_and_clamped :
    (∀ now lastT : ℝ, dtOf now lastT = min 0.032 ((now - lastT) / 1000)) ∧
    (∀ now lastT : ℝ, dtOf now lastT ≤ 0.032) ∧
    (∀ lastT : ℝ, dtOf (lastT + 5000) lastT = 0.032) := by
  refine ⟨fun _ _ => rfl, fun now lastT => min_le_left _ _, fun lastT => ?_⟩
  have h5 : (lastT + 5000 - lastT) / 1000 = (5 : ℝ) := by ring
  rw [dtOf, h5]
  norm_num

/-- C2: the pressure projection runs exactly 15 Jacobi iterations
    (p = (L + R + B + T - div) * 0.25), re-initialized from the all-zero
    pressure field; on a divergence field that is exactly zero everywhere
    the resulting pressure is (exactly, hence within any tolerance) zero
    everywhere. -/
theorem pressure_solve_zero_divergence {w h : ℕ} [NeZero w] [NeZero h]
    (dv : Grid w h ℝ) (hdv : ∀ i j, dv i j = 0) :
    pressureIters = 15 ∧ ∀ i j, solvePressure dv i j = 0 :=
  ⟨rfl, fun i j => solvePressure_zero dv hdv i j⟩

/-- Witness for C2 at the concrete 2x2 all-zero divergence field. -/
theorem pressure_solve_zero_divergence_witness :
    pressureIters = 15 ∧
    ∀ i j : Fin 2, solvePressure (fun _ _ => (0 : ℝ)) i j = 0 :=
  pressure_solve_zero_divergence (fun _ _ => 0) (fun _ _ => rfl)

/-- C3 (evidence of the divergence between code and claim): after
    destroy() on a freshly initialized handle, the animation-frame loop is
    still scheduled, a subsequent splat() still issues its two GPU draw
    passes, and the next tick still executes all 22 pipeline draw calls —
    destroy() only removes the canvas from the DOM. -/
theorem destroy_keeps_loop_and_gpu :
    (destroy initDriver).rafScheduled = true ∧
    (splatIssue (destroy initDriver)).drawCalls = 2 ∧
    (splatRandomIssue 3 (destroy initDriver)).drawCalls = 6 ∧
    (driverStep true (destroy initDriver)).drawCalls = 22 ∧
    (destroy initDriver).canvasAttached = false := by
  refine ⟨rfl, rfl, ?_, rfl, rfl⟩
  rfl

/-- C6: a splat with the force argument omitted leaves every cell of the
    velocity field with exactly the value it had before the call (the
    velocity pass runs but adds force * a = 0). -/
theorem splat_no_force_preserves_velocity {w h : ℕ} [NeZero w] [NeZero h]
    (s : FluidState w h) (x y : ℝ) (color : Fin 3 → ℝ) (radius : Option ℝ)
    (i : Fin w) (j : Fin h) :
    (splat s x y color radius none).vel i j = s.vel i j := by
  rw [splat_vel_apply]
  have hz : (![((none : Option (ℝ × ℝ)).map Prod.fst).getD 0,
               ((none : Option (ℝ × ℝ)).map Prod.snd).getD 0] : Fin 2 → ℝ) = 0 := by
    simp [vec2_zero]
  rw [hz, smul_zero, add_zero]

/-- Witness for C6 at a concrete state and cell. -/
theorem splat_no_force_preserves_velocity_witness :
    (splat fluidZero2 (1 / 2) (1 / 2) (fun _ => 1) none none).vel 0 0 = fluidZero2.vel 0 0 :=
  splat_no_force_preserves_velocity fluidZero2 (1 / 2) (1 / 2) (fun _ => 1) none 0 0

/-- C7 counterexample: with a WebGL2 context available but BOTH required
    floating-point texture extensions unavailable, initialization still
    succeeds — the claim that missing extensions cause an initialization
    failure is false on the code, which discards the getExtension
    results. -/
theorem createGL_ok_without_extensions :
    createGL true false false =
      Except.ok { extColorBufferFloat := false, extTextureFloatLinear := false } := rfl

/-- C7 (amended): initialization fails (with the WebGL2-not-supported
    error) if and only if the rendering context is unavailable; the
    floating-point texture extensions are requested but never checked, so
    their absence does not cause failure; there is no retry (createGL is
    called once and its result is final). -/
theorem createGL_fails_iff_no_context (c e1 e2 : Bool) :
    (initSucceeds (createGL c e1 e2) = true ↔ c = true) ∧
    (createGL c e1 e2 = Except.error InitFailure.webgl2NotSupported ↔ c = false) := by
  cases c <;> simp [createGL, initSucceeds]

/-- C8 counterexample: a scheduled tick arriving while the hosting page
    is hidden still executes the full pipeline (22 draw calls, not 0) —
    step() has no paused state and skips nothing. -/
theorem hidden_tick_still_computes :
    (driverStep false initDriver).drawCalls = 22 ∧
    ¬ (driverStep false initDriver).drawCalls = initDriver.drawCalls := by
  constructor
  · rfl
  · decide

/-- C8 (amended): the render loop has no paused state: a tick behaves
    identically whether or not the page is visible, always executes all
    7 + pressureIters = 22 pipeline draw passes, and always reschedules
    itself.  Any pause while hidden comes solely from the host throttling
    requestAnimationFrame, not from this code. -/
theorem loop_ignores_visibility (v : Bool) (s : DriverState) :
    driverStep v s = driverStep true s ∧
    (driverStep v s).rafScheduled = true ∧
    (driverStep v s).drawCalls = s.drawCalls + stepDrawCount ∧
    stepDrawCount = 22 :=
  ⟨rfl, rfl, rfl, rfl⟩

/-- C9: for a double-buffered pair created with distinct fresh handles,
    after any number of swap() operations the read and write textures are
    still physically distinct, and swap() exchanges exactly the two
    handles (no data is copied: only tex/fbo ids move). -/
theorem double_fbo_invariant (d : DoubleFBO) (hd : d.read.tex ≠ d.write.tex) (n : ℕ) :
    (DoubleFBO.swap^[n] d).read.tex ≠ (DoubleFBO.swap^[n] d).write.tex ∧
    (DoubleFBO.swap d).read.tex = d.write.tex ∧
    (DoubleFBO.swap d).write.tex = d.read.tex := by
  refine ⟨?_, rfl, rfl⟩
  induction n generalizing d with
  | zero => exact hd
  | succ n ih =>
      rw [Function.iterate_succ_apply]
      exact ih _ hd.symm

/-- Witness for C9 at a concretely created pair and three swaps. -/
theorem double_fbo_invariant_witness :
    (DoubleFBO.swap^[3] (createDoubleFBO 1 10 2 20 8 8)).read.tex ≠
      (DoubleFBO.swap^[3] (createDoubleFBO 1 10 2 20 8 8)).write.tex ∧
    (DoubleFBO.swap (createDoubleFBO 1 10 2 20 8 8)).read.tex =
      (createDoubleFBO 1 10 2 20 8 8).write.tex ∧
    (DoubleFBO.swap (createDoubleFBO 1 10 2 20 8 8)).write.tex =
      (createDoubleFBO 1 10 2 20 8 8).read.tex :=
  double_fbo_invariant (createDoubleFBO 1 10 2 20 8 8) (by decide) 3

/-! ## Store / sizing theorems -/

theorem two_le_requestedSize (c d : ℚ) : 2 ≤ requestedSize c d := by
  have hmax : (2 : ℤ) ≤ max 2 ⌊c * d⌋ := le_max_left _ _
  rw [requestedSize]
  omega

/-- C4 counterexample: calling resize() when the computed device-pixel
    size equals the current size (here: client 1 x 1 at dpr 2 against a
    2 x 2 store) leaves the store untouched — the dye content stays 1,
    it is NOT reset to zero, contradicting the claim that every resize()
    resets every field. -/
theorem resize_same_size_keeps_content :
    (resize storeCE 1 1 2).dyeRead.data 0 0 = 1 ∧
    ¬ (resize storeCE 1 1 2).dyeRead.data 0 0 = 0 := by
  have hreq : requestedSize 1 2 = 2 := by
    rw [requestedSize]
    norm_num
    rfl
  have hst : resize storeCE 1 1 2 = storeCE := by
    rw [resize, setSize, if_pos]
    exact ⟨hreq, hreq⟩
  rw [hst]
  exact ⟨rfl, by norm_num [storeCE]⟩

/-- C4 (amended): after any resize() every field has dimensions exactly
    equal to the requested device-pixel size (container client size times
    the capped device pixel ratio, floored, floor 2); the contents are
    reset to zero and prior contents dropped exactly when the computed
    size differs from the current one — a resize() computing an unchanged
    size is a no-op that preserves contents. -/
theorem resize_dims_and_reset (st : FieldStore) (clientW clientH : ℚ)
    (deviceDPR maxDPR : Option ℚ) (hinv : fieldsSized st st.width st.height) :
    fieldsSized (setSize st clientW clientH (cappedDPR deviceDPR maxDPR)).1
      (requestedSize clientW (cappedDPR deviceDPR maxDPR))
      (requestedSize clientH (cappedDPR deviceDPR maxDPR)) ∧
    ((setSize st clientW clientH (cappedDPR deviceDPR maxDPR)).2 = true →
      fieldsZero (setSize st clientW clientH (cappedDPR deviceDPR maxDPR)).1) := by
  rw [setSize]
  by_cases hc : requestedSize clientW (cappedDPR deviceDPR maxDPR) = st.width ∧
      requestedSize clientH (cappedDPR deviceDPR maxDPR) = st.height
  · rw [if_pos hc]
    refine ⟨?_, by simp⟩
    rw [hc.1, hc.2]
    exact hinv
  · rw [if_neg hc]
    exact ⟨by simp [fieldsSized, zeroFieldRec], fun _ => by simp [fieldsZero, zeroFieldRec]⟩

/-- Witness for C4 (amended) at the concrete 2 x 2 store and a genuine
    size change (client 3 x 3 at capped dpr 2 requests 6 x 6). -/
theorem resize_dims_and_reset_witness :
    fieldsSized (setSize storeCE 3 3 (cappedDPR (some 2) none)).1
      (requestedSize 3 (cappedDPR (some 2) none))
      (requestedSize 3 (cappedDPR (some 2) none)) ∧
    ((setSize storeCE 3 3 (cappedDPR (some 2) none)).2 = true →
      fieldsZero (setSize storeCE 3 3 (cappedDPR (some 2) none)).1) :=
  resize_dims_and_reset storeCE 3 3 (some 2) none (by simp [storeCE, zeroFieldRec])

/-- C10: the store invariant — both dimensions at least 2 (even for a
    zero-sized container), all fields at the store's size, texel equal to
    (1/width, 1/height) — holds after the initial setSize() and is
    preserved by every later resize(); under it, both texel components
    are finite, positive, and at most 1/2. -/
theorem store_min_size_and_texel (st : FieldStore)
    (cw0 ch0 dpr0 cw1 ch1 dpr1 : ℚ) (hinv : storeInv st) :
    storeInv (initStore cw0 ch0 dpr0) ∧
    storeInv (resize st cw1 ch1 dpr1) ∧
    (0 < st.texel.1 ∧ st.texel.1 ≤ 1 / 2 ∧ 0 < st.texel.2 ∧ st.texel.2 ≤ 1 / 2) := by
  have hbuild : ∀ cw ch dpr : ℚ, ∀ st0 : FieldStore,
      ¬ (requestedSize cw dpr = st0.width ∧ requestedSize ch dpr = st0.height) →
      storeInv (setSize st0 cw ch dpr).1 := by
    intro cw ch dpr st0 hne
    rw [setSize, if_neg hne]
    exact ⟨two_le_requestedSize cw dpr, two_le_requestedSize ch dpr,
      by simp [fieldsSized, zeroFieldRec], rfl⟩
  have htexel : ∀ st1 : FieldStore, storeInv st1 →
      0 < st1.texel.1 ∧ st1.texel.1 ≤ 1 / 2 ∧ 0 < st1.texel.2 ∧ st1.texel.2 ≤ 1 / 2 := by
    intro st1 h1
    obtain ⟨hw, hh, _, htx⟩ := h1
    have hwq : (2 : ℚ) ≤ (st1.width : ℚ) := by exact_mod_cast hw
    have hhq : (2 : ℚ) ≤ (st1.height : ℚ) := by exact_mod_cast hh
    rw [htx]
    refine ⟨div_pos one_pos (lt_of_lt_of_le (by norm_num) hwq), ?_,
      div_pos one_pos (lt_of_lt_of_le (by norm_num) hhq), ?_⟩
    · have := one_div_le_one_div_of_le (by norm_num : (0 : ℚ) < 2) hwq
      simpa using this
    · have := one_div_le_one_div_of_le (by norm_num : (0 : ℚ) < 2) hhq
      simpa using this
  refine ⟨?_, ?_, htexel st hinv⟩
  · apply hbuild
    intro hcon
    have h2 := two_le_requestedSize cw0 dpr0
    rw [hcon.1] at h2
    simp [emptyStore] at h2
  · rw [resize]
    by_cases hc : requestedSize cw1 dpr1 = st.width ∧ requestedSize ch1 dpr1 = st.height
    · rw [setSize, if_pos hc]
      exact hinv
    · exact hbuild cw1 ch1 dpr1 st hc

/-! ## C5: dye-mass recurrence -/

/-- C5 (amended): starting from any zero-velocity state (in particular
    the freshly initialized one) and any batch of zero-force splats
    issued during frame k, the total dye magnitude at frame k+1 equals
    (total at frame k + dye mass injected during frame k) multiplied by
    the dissipation factor 0.995: the injected mass is itself attenuated
    once by the dye-dissipation pass before the next frame boundary. -/
theorem dye_mass_recurrence {w h : ℕ} [NeZero w] [NeZero h] (dt : ℝ) (s : FluidState w h)
    (L : List SplatReq) (hv : ∀ i j, s.vel i j = 0) (hL : ∀ r ∈ L, ZeroForce r) :
    totalDye (step dt (applySplats s L)).dye =
      clearDye *
        (totalDye s.dye + (L.map fun r => splatMass w h r.x r.y r.color r.radius).sum) :=
  (frameTotal dt s L hv hL).1

/-- Witness for C5 (amended) at the concrete 2 x 2 zero state and the
    concrete zero-force splat request. -/
theorem dye_mass_recurrence_witness :
    totalDye (step (1 / 60) (applySplats fluidZero2 [reqCE])).dye =
      clearDye *
        (totalDye fluidZero2.dye +
          ([reqCE].map fun r => splatMass 2 2 r.x r.y r.color r.radius).sum) :=
  dye_mass_recurrence (1 / 60) fluidZero2 [reqCE] (fun _ _ => rfl)
    (by
      intro r hr
      rw [List.mem_singleton] at hr
      subst hr
      exact ⟨by simp [reqCE], by simp [reqCE]⟩)

theorem splatAmp_reqCE (i j : Fin 2) :
    splatAmp reqCE.x reqCE.y (max 0.002 (reqCE.radius.getD 0.04)) i j =
      Real.exp (-(1 / 800)) := by
  have hcr : max 0.002 (reqCE.radius.getD 0.04) = (10 : ℝ) := by
    simp only [reqCE, Option.getD_some]
    norm_num
  rw [hcr, splatAmp]
  have hS : (ctr 2 ((i : ℕ) : ℤ) - reqCE.x) ^ 2 + (ctr 2 ((j : ℕ) : ℤ) - reqCE.y) ^ 2
      = 1 / 8 := by
    fin_cases i <;> fin_cases j <;> norm_num [ctr, reqCE]
  rw [hS, Real.mul_self_sqrt (by norm_num)]
  norm_num

theorem splatMass_reqCE :
    splatMass 2 2 reqCE.x reqCE.y reqCE.color reqCE.radius = 1200 * Real.exp (-(1 / 800)) := by
  rw [splatMass, Fin.sum_univ_two, Fin.sum_univ_two, Fin.sum_univ_two,
    splatAmp_reqCE, splatAmp_reqCE, splatAmp_reqCE, splatAmp_reqCE]
  have hc : reqCE.color 0 + reqCE.color 1 + reqCE.color 2 = (300 : ℝ) := by
    simp [reqCE]
    norm_num
  rw [hc]
  ring

/-- C5 counterexample: for the concrete zero-force splat of reqCE into
    the freshly initialized 2 x 2 state, the total dye at the next frame
    differs from the claimed value
    (previous total) x 0.995 + (injected mass) by more than 5 — far
    beyond floating-point tolerance (the code attenuates the injected
    mass too: the true total is ((previous total) + (injected mass)) x
    0.995). -/
theorem dye_mass_claim_gap :
    5 < |totalDye (step (1 / 60) (applySplats fluidZero2 [reqCE])).dye -
          (clearDye * totalDye fluidZero2.dye +
            ([reqCE].map fun r => splatMass 2 2 r.x r.y r.color r.radius).sum)| := by
  have hfr := (frameTotal (1 / 60) fluidZero2 [reqCE] (fun _ _ => rfl)
    (by
      intro r hr
      rw [List.mem_singleton] at hr
      subst hr
      exact ⟨by simp [reqCE], by simp [reqCE]⟩)).1
  have hT0 : totalDye fluidZero2.dye = 0 := by
    simp [totalDye, fluidZero2]
  have hsum : ([reqCE].map fun r => splatMass 2 2 r.x r.y r.color r.radius).sum =
      1200 * Real.exp (-(1 / 800)) := by
    rw [List.map_cons, List.map_nil, List.sum_cons, List.sum_nil, splatMass_reqCE, add_zero]
  rw [hfr, hT0, hsum, clearDye]
  have hexp : (1 : ℝ) - 1 / 800 ≤ Real.exp (-(1 / 800)) := by
    have := Real.add_one_le_exp (-(1 / 800) : ℝ)
    linarith
  have hgap : (0.995 : ℝ) * (0 + 1200 * Real.exp (-(1 / 800))) -
      (0.995 * 0 + 1200 * Real.exp (-(1 / 800))) = -(6 * Real.exp (-(1 / 800))) := by
    ring
  rw [hgap, abs_neg, abs_of_nonneg (by positivity)]
  nlinarith [hexp]

/-- Witness for C10 at the concrete 2 x 2 store. -/
theorem store_min_size_and_texel_witness :
    storeInv (initStore 1 1 2) ∧
    storeInv (resize storeCE 3 3 2) ∧
    (0 < storeCE.texel.1 ∧ storeCE.texel.1 ≤ 1 / 2 ∧
      0 < storeCE.texel.2 ∧ storeCE.texel.2 ≤ 1 / 2) :=
  store_min_size_and_texel storeCE 1 1 2 3 3 2
    (by refine ⟨by norm_num [storeCE], by norm_num [storeCE], by simp [storeCE, zeroFieldRec], ?_⟩
        norm_num [storeCE])

end Fluid
